import Mathlib

/-!
# StockNav: verification of the technical-signal engine and the retry client

Shallow embedding of the algorithmic core of the StockNav repository:

* `StockScraper.technical_analysis` (src/Scraper.py): five technical
  indicators over the closing-price series, combined by fixed weighted
  voting into one of the labels "Buy" / "Sell" / "Hold".
* `ContentGenerator.generate_content` and `ContentGenerator._configure_model`
  (src/Content.py): the retry / rate-limit client around the external
  generative model.
* `StockAnalysisPipeline.run_pipeline` (src/Analysis.py): orchestration,
  in particular the report-file write step.

Floating-point closing prices are modelled as rationals; a pandas NaN cell
is modelled as `none : Option ℚ`, and — as in pandas/numpy — every ordered
comparison against a NaN value is false.
-/

namespace StockNav

/-- Pandas semantics of `a > b` on cells that may be NaN: any comparison
involving NaN is false. -/
def ogtB (a b : Option ℚ) : Bool :=
  match a, b with
  | some x, some y => decide (y < x)
  | _, _ => false

/-- Pandas semantics of `a < b` on cells that may be NaN. -/
def oltB (a b : Option ℚ) : Bool :=
  match a, b with
  | some x, some y => decide (x < y)
  | _, _ => false

/-- The last `n` elements of a list (the window of the final rolling cell). -/
def lastN (n : Nat) (xs : List ℚ) : List ℚ :=
  xs.drop (xs.length - n)

/-- Last cell of `series.rolling(window=n).mean()`: NaN (`none`) until the
window holds `n` observations, else the arithmetic mean of the last `n`. -/
def rollingMeanLast (n : Nat) (xs : List ℚ) : Option ℚ :=
  if xs.length < n then none else some ((lastN n xs).sum / (n : ℚ))

/-- Last cell of `series.rolling(window=n).std(ddof=0)` squared, i.e. the
population variance of the final window (ta's BollingerBands uses ddof=0).
Kept as the variance because the standard deviation itself is irrational;
band comparisons below are encoded exactly through the variance. -/
def rollingVarLast (n : Nat) (xs : List ℚ) : Option ℚ :=
  if xs.length < n then none
  else
    some ((((lastN n xs).map (fun x => (x - (lastN n xs).sum / (n : ℚ)) ^ 2)).sum) / (n : ℚ))

/-- One step of `ewm(adjust=False)`: `y = (1 - alpha) * y + alpha * x`. -/
def ewmStep (alpha y x : ℚ) : ℚ :=
  (1 - alpha) * y + alpha * x

/-- The full `series.ewm(alpha, adjust=False).mean()` recursion over a run of
non-NaN cells: `y 0 = x 0`, `y t = (1 - alpha) * y (t-1) + alpha * x t`.
Same length as the input. -/
def ewmSeries (alpha : ℚ) : List ℚ → List ℚ
  | [] => []
  | x :: xs => List.scanl (ewmStep alpha) x xs

/-- Last cell of the `ewm(adjust=False)` recursion, `none` on an empty run. -/
def ewmLast (alpha : ℚ) (xs : List ℚ) : Option ℚ :=
  (ewmSeries alpha xs).getLast?

/-- `series.diff(1)` without its leading NaN: consecutive differences. -/
def diffs (xs : List ℚ) : List ℚ :=
  List.zipWith (fun prev cur => cur - prev) xs xs.tail

/-- SMA-cross vote (Scraper.py lines 56-58):
`1 if SMA_50.iloc[-1] > SMA_100.iloc[-1] else -1`, where each SMA is the last
cell of `Close.rolling(window).mean()` (NaN while the window is unfilled). -/
def smaVote (closes : List ℚ) : Int :=
  if ogtB (rollingMeanLast 50 closes) (rollingMeanLast 100 closes) then 1 else -1

/-- Last cell of `ta.momentum.RSIIndicator(close, window=14).rsi()`:
gains/losses of `close.diff(1)` (the leading NaN cell becomes 0.0 through
`diff.where(cond, 0.0)`), smoothed by `ewm(alpha=1/14, min_periods=14,
adjust=False)`; NaN until 14 observations; `rsi = 100` where the smoothed
loss is zero, else `100 - 100 / (1 + gain/loss)`. -/
def rsiLast (closes : List ℚ) : Option ℚ :=
  if closes.length < 14 then none
  else
    let ds := diffs closes
    let ups := (0 : ℚ) :: ds.map (fun d => if 0 < d then d else 0)
    let downs := (0 : ℚ) :: ds.map (fun d => if d < 0 then -d else 0)
    match ewmLast (1 / 14) ups, ewmLast (1 / 14) downs with
    | some eu, some ed => some (if ed = 0 then 100 else 100 - 100 / (1 + eu / ed))
    | _, _ => none

/-- RSI vote (Scraper.py lines 61-67): `-1` if RSI > 70, `1` if RSI < 30,
else `0`; comparisons against a NaN RSI are false, giving `0`. -/
def rsiVote (closes : List ℚ) : Int :=
  if ogtB (rsiLast closes) (some 70) then -1
  else if oltB (rsiLast closes) (some 30) then 1
  else 0

/-- The non-NaN run of the MACD line `EMA12 - EMA26` of `ta.trend.MACD`:
the slow EMA (span 26, min_periods 26) is NaN before index 25, so the MACD
line's defined cells start at index 25. `alpha = 2 / (span + 1)`. -/
def macdSeries (closes : List ℚ) : List ℚ :=
  List.zipWith (fun f s => f - s)
    ((ewmSeries (2 / 13) closes).drop 25) ((ewmSeries (2 / 27) closes).drop 25)

/-- Last cell of `macd.macd()`: NaN until 26 observations. -/
def macdLineLast (closes : List ℚ) : Option ℚ :=
  if closes.length < 26 then none else (macdSeries closes).getLast?

/-- Last cell of `macd.macd_signal()`: the MACD line smoothed by
`ewm(span=9, min_periods=9, adjust=False)`; pandas starts the recursion at
the line's first non-NaN cell (index 25) and needs 9 defined observations,
so the signal is NaN until 34 observations. -/
def macdSignalLast (closes : List ℚ) : Option ℚ :=
  if closes.length < 34 then none else ewmLast (1 / 5) (macdSeries closes)

/-- MACD-cross vote (Scraper.py lines 70-73):
`1 if MACD_line.iloc[-1] > MACD_signal.iloc[-1] else -1`. -/
def macdVote (closes : List ℚ) : Int :=
  if ogtB (macdLineLast closes) (macdSignalLast closes) then 1 else -1

/-- Bollinger vote (Scraper.py lines 76-84) for
`ta.volatility.BollingerBands(close, window=20, window_dev=2)`:
`1` if the last close is below `mavg - 2 * std`, `-1` if above
`mavg + 2 * std`, else `0`; `0` as well while the 20-bar window is unfilled
(NaN bands compare false). With `v` the window variance and `s = sqrt v`,
`c < m - 2*s` holds exactly when `0 < m - c` and `4*v < (m - c)^2`, which is
how the irrational band comparison is decided over ℚ. -/
def bbVote (closes : List ℚ) : Int :=
  match rollingMeanLast 20 closes, rollingVarLast 20 closes, closes.getLast? with
  | some m, some v, some c =>
      if 0 < m - c ∧ 4 * v < (m - c) ^ 2 then 1
      else if 0 < c - m ∧ 4 * v < (c - m) ^ 2 then -1
      else 0
  | _, _, _ => 0

/-- Last cell of `ta.trend.EMAIndicator(close, window).ema_indicator()`:
`close.ewm(span=window, min_periods=window, adjust=False).mean()`, NaN until
`window` observations, with `alpha = 2 / (window + 1)`. -/
def emaLast (window : Nat) (closes : List ℚ) : Option ℚ :=
  if closes.length < window then none
  else ewmLast (2 / ((window : ℚ) + 1)) closes

/-- EMA-cross vote (Scraper.py lines 87-89):
`1 if EMA_20.iloc[-1] > EMA_50.iloc[-1] else -1`. -/
def emaVote (closes : List ℚ) : Int :=
  if ogtB (emaLast 20 closes) (emaLast 50 closes) then 1 else -1

/-- The `signals` list in the order the code appends the votes:
SMA-cross, RSI, MACD-cross, Bollinger, EMA-cross. -/
def signalsOf (closes : List ℚ) : List Int :=
  [smaVote closes, rsiVote closes, macdVote closes, bbVote closes, emaVote closes]

/-- The fixed voting weights (Scraper.py line 92). -/
def weights : List ℚ :=
  [3 / 10, 1 / 5, 1 / 5, 1 / 5, 1 / 10]

/-- `weighted_signals = sum(s * w for s, w in zip(signals, weights))`
(Scraper.py line 93). -/
def weightedScore (signals : List Int) : ℚ :=
  ((signals.zip weights).map (fun p => (p.1 : ℚ) * p.2)).sum

/-- The decision mapping at the end of `technical_analysis`
(Scraper.py lines 95-99): strict thresholds at 0.5 and -0.5. -/
def decision (score : ℚ) : String :=
  if score > 1 / 2 then "Buy"
  else if score < -(1 / 2) then "Sell"
  else "Hold"

/-- `StockScraper.technical_analysis` (Scraper.py lines 42-99) on the fetched
closing-price series: the empty-fetch guard, then the five votes combined by
weighted voting into a decision label. -/
def technical_analysis (closes : List ℚ) : String :=
  if closes.isEmpty then "Data fetch failed. Check the stock symbol."
  else decision (weightedScore (signalsOf closes))

/-! ## ContentGenerator (src/Content.py) -/

/-- One outcome of `self.model.generate_content(prompt)`: either it raises an
exception carrying a message, or it returns a response whose `.text` either
parses (`some text`) or raises `ValueError` (`none`, the malformed payload). -/
inductive CallResult where
  | failure (msg : String)
  | success (text : Option String)
deriving DecidableEq

/-- `pat` begins `s` (character lists). -/
def charsPre : List Char → List Char → Bool
  | [], _ => true
  | _ :: _, [] => false
  | p :: ps, c :: cs => p == c && charsPre ps cs

/-- `pat` occurs somewhere in `s` (character lists). -/
def charsSub : List Char → List Char → Bool
  | pat, [] => charsPre pat []
  | pat, c :: cs => charsPre pat (c :: cs) || charsSub pat cs

/-- Python's `pat in s` on strings: substring containment. -/
def containsSub (s pat : String) : Bool :=
  charsSub pat.data s.data

/-- The transient-error test of Content.py line 44:
`'500' in str(e) or '503' in str(e)`. -/
def isTransient (msg : String) : Bool :=
  containsSub msg "500" || containsSub msg "503"

/-- Everything observable about one `generate_content` run: the returned
value (`none` is Python's `None`), how many calls reached the external model,
the `time.sleep` durations in order, whether a model call completed without
raising (so the success path was taken), the instant (relative to the start
of the run, sleeps being the only elapsing time) at which the final model
call was issued, and the instant at which the method returns. -/
structure GenTrace where
  result : Option String
  calls : Nat
  sleeps : List Nat
  succeeded : Bool
  lastCallTime : Nat
  endTime : Nat
deriving DecidableEq

/-- `ContentGenerator.generate_content` (Content.py lines 32-64), the external
model abstracted as the sequence of outcomes its successive invocations would
produce. First call; on an exception whose text contains "500" or "503",
`time.sleep(60)` then exactly one retry, a second exception returning `None`;
any other exception returning `None` at once; on a completed call,
`time.sleep(request_interval)` and then `response.text`, which parses or
yields `None` on `ValueError`. -/
def generate_content (request_interval : Nat) (model : Nat → CallResult) : GenTrace :=
  match model 0 with
  | CallResult.success t =>
      { result := t, calls := 1, sleeps := [request_interval],
        succeeded := true, lastCallTime := 0, endTime := request_interval }
  | CallResult.failure msg =>
      if isTransient msg then
        match model 1 with
        | CallResult.success t =>
            { result := t, calls := 2, sleeps := [60, request_interval],
              succeeded := true, lastCallTime := 60, endTime := 60 + request_interval }
        | CallResult.failure _ =>
            { result := none, calls := 2, sleeps := [60],
              succeeded := false, lastCallTime := 60, endTime := 60 }
      else
        { result := none, calls := 1, sleeps := [],
          succeeded := false, lastCallTime := 0, endTime := 0 }

/-- Python truthiness of the `api_key` argument (`None` or `""` is falsy). -/
def falsyKey (api_key : Option String) : Bool :=
  match api_key with
  | none => true
  | some s => s.isEmpty

/-- What `ContentGenerator._configure_model` (Content.py lines 24-30) does:
`raised` is the `ValueError` message when it raises, and `configured` records
whether `genai.configure` / `GenerativeModel` ran. -/
structure ConfigureTrace where
  raised : Option String
  configured : Bool
deriving DecidableEq

/-- `ContentGenerator._configure_model`: a falsy key raises
`ValueError("API key is required.")` before any configuration; otherwise the
model is configured and nothing is raised. -/
def configure_model (api_key : Option String) : ConfigureTrace :=
  if falsyKey api_key then { raised := some "API key is required.", configured := false }
  else { raised := none, configured := true }

/-! ## StockAnalysisPipeline (src/Analysis.py) -/

/-- Observable outcome of `run_pipeline` around the report write:
whether the run stopped at the scrape check, whether
`open(file_path, "w")` ran (creating or truncating the report file),
what content `f.write` wrote (if it completed), and whether the write step
raised (`f.write(None)` raises `TypeError`). -/
structure PipelineTrace where
  stoppedAtScrape : Bool
  fileCreated : Bool
  written : Option String
  writeRaised : Bool
deriving DecidableEq

/-- `StockAnalysisPipeline.run_pipeline` (Analysis.py lines 26-75), the two
external collaborators abstracted by their outcomes: `scrapeError` is whether
`get_stock_properties` returned a mapping with an "error" key, `genResult` is
what `generate_content` returned. After generation the code unconditionally
executes `open(file_path, "w")` — which creates or truncates the file — and
then `f.write(analysis_result)`, which raises `TypeError` when the result is
`None`. -/
def run_pipeline (scrapeError : Bool) (genResult : Option String) : PipelineTrace :=
  if scrapeError then
    { stoppedAtScrape := true, fileCreated := false, written := none, writeRaised := false }
  else
    match genResult with
    | some text =>
        { stoppedAtScrape := false, fileCreated := true, written := some text, writeRaised := false }
    | none =>
        { stoppedAtScrape := false, fileCreated := true, written := none, writeRaised := true }

end StockNav

namespace StockNav

/-! ## Helper lemmas -/

/-- A pandas comparison whose right operand is NaN is false. -/
theorem ogtB_none_right (a : Option ℚ) : ogtB a none = false := by
  cases a <;> rfl

/-- The decision mapping outputs "Buy" exactly on scores strictly above 1/2. -/
theorem decision_eq_buy (s : ℚ) : decision s = "Buy" ↔ 1 / 2 < s := by
  unfold decision
  split_ifs with hb hs
  · exact iff_of_true rfl hb
  · constructor
    · intro hc; exact absurd hc (by decide)
    · intro hc; exact absurd hc hb
  · constructor
    · intro hc; exact absurd hc (by decide)
    · intro hc; exact absurd hc hb

/-- The decision mapping outputs "Sell" exactly on scores strictly below -1/2. -/
theorem decision_eq_sell (s : ℚ) : decision s = "Sell" ↔ s < -(1 / 2) := by
  unfold decision
  split_ifs with hb hs
  · constructor
    · intro hc; exact absurd hc (by decide)
    · intro hc; exact absurd (lt_trans hc (by norm_num)) (asymm hb)
  · exact iff_of_true rfl hs
  · constructor
    · intro hc; exact absurd hc (by decide)
    · intro hc; exact absurd hc hs

/-- The decision mapping outputs "Hold" exactly on the closed band
[-1/2, 1/2]. -/
theorem decision_eq_hold (s : ℚ) : decision s = "Hold" ↔ -(1 / 2) ≤ s ∧ s ≤ 1 / 2 := by
  unfold decision
  split_ifs with hb hs
  · constructor
    · intro hc; exact absurd hc (by decide)
    · intro hc; exact absurd hb (not_lt.mpr hc.2)
  · constructor
    · intro hc; exact absurd hc (by decide)
    · intro hc; exact absurd hs (not_lt.mpr hc.1)
  · exact iff_of_true rfl ⟨not_lt.mp hs, not_lt.mp hb⟩

/-- The decision mapping never outputs anything outside the three labels. -/
theorem decision_mem (s : ℚ) :
    decision s = "Buy" ∨ decision s = "Sell" ∨ decision s = "Hold" := by
  unfold decision
  split_ifs <;> simp

/-- Closed form of the weighted score on a five-vote list. -/
theorem weightedScore_closed (w1 w2 w3 w4 w5 : Int) :
    weightedScore [w1, w2, w3, w4, w5] =
      (w1 : ℚ) * (3 / 10) + (w2 : ℚ) * (1 / 5) + (w3 : ℚ) * (1 / 5) +
        (w4 : ℚ) * (1 / 5) + (w5 : ℚ) * (1 / 10) := by
  simp [weightedScore, weights]
  ring

end StockNav

namespace StockNav

/-! ## Claims about the technical-signal engine -/

/-- C1 (counterexample): on a 50-bar series the SMA-cross vote is -1, not the
neutral 0 the claim requires — `SMA_100.iloc[-1]` is NaN, `SMA_50 > NaN`
is false, and the else branch appends -1. -/
theorem C1_counterexample :
    0 < (List.replicate 50 (100 : ℚ)).length ∧
    (List.replicate 50 (100 : ℚ)).length < 100 ∧
    smaVote (List.replicate 50 (100 : ℚ)) = -1 ∧
    smaVote (List.replicate 50 (100 : ℚ)) ≠ 0 := by
  refine ⟨by decide, by decide, by decide, by decide⟩

/-- C1 (amended): for every non-empty price series with fewer than 100 bars,
the SMA-cross vote evaluates to -1 (never an error): the 100-period rolling
mean is NaN, the NaN comparison is false, and the else branch yields -1. -/
theorem C1_sma_vote_short_series (closes : List ℚ)
    (hne : 0 < closes.length) (hlt : closes.length < 100) :
    smaVote closes = -1 := by
  unfold smaVote
  have h100 : rollingMeanLast 100 closes = none := by
    unfold rollingMeanLast
    rw [if_pos hlt]
  rw [h100]
  simp [ogtB_none_right]

/-- C1 witness: the amended statement applied to a concrete 50-bar series. -/
theorem C1_sma_vote_short_series_witness :
    smaVote (List.replicate 50 (100 : ℚ)) = -1 :=
  C1_sma_vote_short_series (List.replicate 50 (100 : ℚ)) (by decide) (by decide)

/-- C3: the decision mapping is strict and non-overlapping — "Buy" exactly on
score > 1/2, "Sell" exactly on score < -1/2, "Hold" exactly on the closed
band in between; in particular both boundary scores map to "Hold". -/
theorem C3_decision_strict_thresholds (s : ℚ) :
    (decision s = "Buy" ↔ 1 / 2 < s) ∧
    (decision s = "Sell" ↔ s < -(1 / 2)) ∧
    (decision s = "Hold" ↔ -(1 / 2) ≤ s ∧ s ≤ 1 / 2) ∧
    decision (1 / 2) = "Hold" ∧
    decision (-(1 / 2)) = "Hold" :=
  ⟨decision_eq_buy s, decision_eq_sell s, decision_eq_hold s,
    (decision_eq_hold (1 / 2)).mpr ⟨by norm_num, le_refl _⟩,
    (decision_eq_hold (-(1 / 2))).mpr ⟨le_refl _, by norm_num⟩⟩

/-- C4: for five votes in \x7b-1, 0, +1\x7d, the score is the exact weighted
sum with weights [0.3, 0.2, 0.2, 0.2, 0.1], it lies in [-1, 1], the weights
sum to 1, and the three canonical vote vectors give score 1 (Buy),
-1 (Sell) and 0 (Hold). -/
theorem C4_weighted_voting (v1 v2 v3 v4 v5 : Int)
    (h1 : v1 = -1 ∨ v1 = 0 ∨ v1 = 1) (h2 : v2 = -1 ∨ v2 = 0 ∨ v2 = 1)
    (h3 : v3 = -1 ∨ v3 = 0 ∨ v3 = 1) (h4 : v4 = -1 ∨ v4 = 0 ∨ v4 = 1)
    (h5 : v5 = -1 ∨ v5 = 0 ∨ v5 = 1) :
    weightedScore [v1, v2, v3, v4, v5] =
      (v1 : ℚ) * (3 / 10) + (v2 : ℚ) * (1 / 5) + (v3 : ℚ) * (1 / 5) +
        (v4 : ℚ) * (1 / 5) + (v5 : ℚ) * (1 / 10) ∧
    -1 ≤ weightedScore [v1, v2, v3, v4, v5] ∧
    weightedScore [v1, v2, v3, v4, v5] ≤ 1 ∧
    weights.sum = 1 ∧
    weightedScore [1, 1, 1, 1, 1] = 1 ∧
    decision (weightedScore [1, 1, 1, 1, 1]) = "Buy" ∧
    weightedScore [-1, -1, -1, -1, -1] = -1 ∧
    decision (weightedScore [-1, -1, -1, -1, -1]) = "Sell" ∧
    weightedScore [0, 0, 0, 0, 0] = 0 ∧
    decision (weightedScore [0, 0, 0, 0, 0]) = "Hold" := by
  have b1 : -1 ≤ (v1 : ℚ) ∧ (v1 : ℚ) ≤ 1 := by rcases h1 with rfl | rfl | rfl <;> norm_num
  have b2 : -1 ≤ (v2 : ℚ) ∧ (v2 : ℚ) ≤ 1 := by rcases h2 with rfl | rfl | rfl <;> norm_num
  have b3 : -1 ≤ (v3 : ℚ) ∧ (v3 : ℚ) ≤ 1 := by rcases h3 with rfl | rfl | rfl <;> norm_num
  have b4 : -1 ≤ (v4 : ℚ) ∧ (v4 : ℚ) ≤ 1 := by rcases h4 with rfl | rfl | rfl <;> norm_num
  have b5 : -1 ≤ (v5 : ℚ) ∧ (v5 : ℚ) ≤ 1 := by rcases h5 with rfl | rfl | rfl <;> norm_num
  have e1 : weightedScore [1, 1, 1, 1, 1] = 1 := by
    rw [weightedScore_closed]; norm_num
  have e2 : weightedScore [-1, -1, -1, -1, -1] = -1 := by
    rw [weightedScore_closed]; norm_num
  have e3 : weightedScore [0, 0, 0, 0, 0] = 0 := by
    rw [weightedScore_closed]; norm_num
  refine ⟨weightedScore_closed v1 v2 v3 v4 v5, ?_, ?_, ?_, e1, ?_, e2, ?_, e3, ?_⟩
  · rw [weightedScore_closed]
    linarith [b1.1, b2.1, b3.1, b4.1, b5.1]
  · rw [weightedScore_closed]
    linarith [b1.2, b2.2, b3.2, b4.2, b5.2]
  · simp [weights]; norm_num
  · rw [e1, (decision_eq_buy 1).mpr (by norm_num)]
  · rw [e2, (decision_eq_sell (-1)).mpr (by norm_num)]
  · rw [e3, (decision_eq_hold 0).mpr (by norm_num)]

/-- C4 witness: the theorem applied to the all-ones vote vector. -/
theorem C4_weighted_voting_witness :
    weightedScore [1, 1, 1, 1, 1] =
      ((1 : Int) : ℚ) * (3 / 10) + ((1 : Int) : ℚ) * (1 / 5) + ((1 : Int) : ℚ) * (1 / 5) +
        ((1 : Int) : ℚ) * (1 / 5) + ((1 : Int) : ℚ) * (1 / 10) ∧
    -1 ≤ weightedScore [1, 1, 1, 1, 1] ∧
    weightedScore [1, 1, 1, 1, 1] ≤ 1 ∧
    weights.sum = 1 ∧
    weightedScore [1, 1, 1, 1, 1] = 1 ∧
    decision (weightedScore [1, 1, 1, 1, 1]) = "Buy" ∧
    weightedScore [-1, -1, -1, -1, -1] = -1 ∧
    decision (weightedScore [-1, -1, -1, -1, -1]) = "Sell" ∧
    weightedScore [0, 0, 0, 0, 0] = 0 ∧
    decision (weightedScore [0, 0, 0, 0, 0]) = "Hold" :=
  C4_weighted_voting 1 1 1 1 1 (Or.inr (Or.inr rfl)) (Or.inr (Or.inr rfl))
    (Or.inr (Or.inr rfl)) (Or.inr (Or.inr rfl)) (Or.inr (Or.inr rfl))

/-- C8: on an empty price series, `technical_analysis` returns the fetch
failure message, which is none of the three recommendation labels, and in
particular is not the output of the decision mapping on any score — the
aggregation stage is never reached. -/
theorem C8_empty_series_fetch_failure :
    technical_analysis ([] : List ℚ) = "Data fetch failed. Check the stock symbol." ∧
    technical_analysis ([] : List ℚ) ≠ "Buy" ∧
    technical_analysis ([] : List ℚ) ≠ "Sell" ∧
    technical_analysis ([] : List ℚ) ≠ "Hold" ∧
    ∀ s : ℚ, technical_analysis ([] : List ℚ) ≠ decision s := by
  refine ⟨rfl, by decide, by decide, by decide, ?_⟩
  intro s
  have h := decision_mem s
  rcases h with h | h | h <;> rw [h] <;> decide

/-- C10: on every non-empty price series the analysis reaches the weighted
voting stage and returns exactly one of the three labels, whatever the
numeric content of the series. -/
theorem C10_nonempty_series_total (closes : List ℚ) (h : closes ≠ []) :
    technical_analysis closes = decision (weightedScore (signalsOf closes)) ∧
    (technical_analysis closes = "Buy" ∨ technical_analysis closes = "Sell" ∨
      technical_analysis closes = "Hold") := by
  have hE : closes.isEmpty = false := by
    cases closes with
    | nil => exact absurd rfl h
    | cons a l => rfl
  have h1 : technical_analysis closes = decision (weightedScore (signalsOf closes)) := by
    unfold technical_analysis
    rw [hE]
    rfl
  refine ⟨h1, ?_⟩
  rw [h1]
  exact decision_mem (weightedScore (signalsOf closes))

/-- C10 witness: the theorem applied to a one-bar series. -/
theorem C10_nonempty_series_total_witness :
    technical_analysis [(100 : ℚ)] = decision (weightedScore (signalsOf [(100 : ℚ)])) ∧
    (technical_analysis [(100 : ℚ)] = "Buy" ∨ technical_analysis [(100 : ℚ)] = "Sell" ∨
      technical_analysis [(100 : ℚ)] = "Hold") :=
  C10_nonempty_series_total [(100 : ℚ)] (by decide)

end StockNav
namespace StockNav

/-! ## Claims about the retry client and the pipeline -/

/-- A model whose first call raises a transient-signature error and whose
retry raises again. -/
def modelTransientThenFail : Nat → CallResult :=
  fun n => if n = 0 then CallResult.failure "503 Service Unavailable"
    else CallResult.failure "502 Bad Gateway"

/-- A model whose calls all succeed with a parsable payload. -/
def modelOk : Nat → CallResult :=
  fun _ => CallResult.success (some "report text")

/-- A model whose calls succeed but return an unparsable payload
(`response.text` raises `ValueError`). -/
def modelUnparsable : Nat → CallResult :=
  fun _ => CallResult.success none

/-- A model whose calls all raise a permanent (non-transient) error. -/
def modelNotFound : Nat → CallResult :=
  fun _ => CallResult.failure "404 not found"

/-- How one `generate_content` run unfolds once the first call is known to
have raised `msg`. -/
theorem generate_content_first_failure (request_interval : Nat)
    (model : Nat → CallResult) (msg : String)
    (h0 : model 0 = CallResult.failure msg) :
    generate_content request_interval model =
      (if isTransient msg then
        match model 1 with
        | CallResult.success t =>
            { result := t, calls := 2, sleeps := [60, request_interval],
              succeeded := true, lastCallTime := 60, endTime := 60 + request_interval }
        | CallResult.failure _ =>
            { result := none, calls := 2, sleeps := [60],
              succeeded := false, lastCallTime := 60, endTime := 60 }
      else
        { result := none, calls := 1, sleeps := [],
          succeeded := false, lastCallTime := 0, endTime := 0 }) := by
  unfold generate_content
  rw [h0]

/-- How one `generate_content` run unfolds once the first call is known to
have completed with payload `t`. -/
theorem generate_content_first_success (request_interval : Nat)
    (model : Nat → CallResult) (t : Option String)
    (h0 : model 0 = CallResult.success t) :
    generate_content request_interval model =
      { result := t, calls := 1, sleeps := [request_interval],
        succeeded := true, lastCallTime := 0, endTime := request_interval } := by
  unfold generate_content
  rw [h0]

/-- C2: when the first model call raises, the error text decides everything:
a transient signature (contains "500" or "503") leads to the 60-unit sleep
first, then exactly one retry (two calls in total), whose own failure ends
the run with the failure value; any other signature ends the run at once,
with one call, no sleep and the failure value. -/
theorem C2_retry_policy (request_interval : Nat) (model : Nat → CallResult)
    (msg : String) (h0 : model 0 = CallResult.failure msg) :
    (isTransient msg = true →
      (generate_content request_interval model).sleeps.head? = some 60 ∧
      (generate_content request_interval model).lastCallTime = 60 ∧
      (generate_content request_interval model).calls = 2 ∧
      (∀ t, model 1 = CallResult.success t →
        (generate_content request_interval model).result = t) ∧
      (∀ msg2, model 1 = CallResult.failure msg2 →
        (generate_content request_interval model).result = none)) ∧
    (isTransient msg = false →
      (generate_content request_interval model).calls = 1 ∧
      (generate_content request_interval model).result = none ∧
      (generate_content request_interval model).sleeps = []) := by
  rw [generate_content_first_failure request_interval model msg h0]
  constructor
  · intro ht
    rw [if_pos ht]
    cases hm1 : model 1 with
    | success t =>
      refine ⟨rfl, rfl, rfl, ?_, ?_⟩
      · intro u hu
        cases hu
        rfl
      · intro msg2 hbad
        exact CallResult.noConfusion hbad
    | failure m2 =>
      refine ⟨rfl, rfl, rfl, ?_, ?_⟩
      · intro u hu
        exact CallResult.noConfusion hu
      · intro msg2 _
        rfl
  · intro ht
    rw [if_neg (by simp [ht])]
    exact ⟨rfl, rfl, rfl⟩

/-- C2 witness: the theorem applied to a concrete model whose first call
fails with a "503" signature and whose retry fails again. -/
theorem C2_retry_policy_witness :
    (generate_content 40 modelTransientThenFail).sleeps.head? = some 60 ∧
    (generate_content 40 modelTransientThenFail).lastCallTime = 60 ∧
    (generate_content 40 modelTransientThenFail).calls = 2 ∧
    (generate_content 40 modelTransientThenFail).result = none := by
  have h := (C2_retry_policy 40 modelTransientThenFail "503 Service Unavailable" rfl).1
    (by decide)
  exact ⟨h.1, h.2.1, h.2.2.1, h.2.2.2.2 "502 Bad Gateway" rfl⟩

/-- C5 (counterexample): the claim says a caller can distinguish a parse
failure from a service error; but `generate_content` returns the identical
value `None` for an unparsable success payload and for a permanent "404"
error, so the two are indistinguishable in the returned value. -/
theorem C5_counterexample :
    (generate_content 40 modelUnparsable).result = none ∧
    (generate_content 40 modelNotFound).result = none ∧
    (generate_content 40 modelUnparsable).result =
      (generate_content 40 modelNotFound).result := by
  have h1 : (generate_content 40 modelUnparsable).result = none := by
    rw [generate_content_first_success 40 modelUnparsable none rfl]
  have h2 : (generate_content 40 modelNotFound).result = none := by
    rw [generate_content_first_failure 40 modelNotFound "404 not found" rfl]
    rw [if_neg (by decide)]
  exact ⟨h1, h2, h1.trans h2.symm⟩

/-- C5 (amended): a success whose payload cannot be parsed is never retried —
exactly one model call — and, after the inter-call sleep, is reported through
the same failure value `None` that service errors produce; only the log line
differs, so the returned value does not separate the failure classes. -/
theorem C5_parse_failure_not_retried (request_interval : Nat)
    (model : Nat → CallResult) (h : model 0 = CallResult.success none) :
    (generate_content request_interval model).calls = 1 ∧
    (generate_content request_interval model).result = none ∧
    (generate_content request_interval model).succeeded = true ∧
    (generate_content request_interval model).sleeps = [request_interval] := by
  rw [generate_content_first_success request_interval model none h]
  exact ⟨rfl, rfl, rfl, rfl⟩

/-- C5 witness: the amended statement applied to the unparsable-payload
model. -/
theorem C5_parse_failure_not_retried_witness :
    (generate_content 40 modelUnparsable).calls = 1 ∧
    (generate_content 40 modelUnparsable).result = none ∧
    (generate_content 40 modelUnparsable).succeeded = true ∧
    (generate_content 40 modelUnparsable).sleeps = [40] :=
  C5_parse_failure_not_retried 40 modelUnparsable rfl

/-- C6 (the code at the failing input): when the scrape succeeds and the
generation step returns the failure value `None`, `run_pipeline` still
creates (truncates) the report file — `open(file_path, "w")` runs
unconditionally — and the write step then raises, leaving a partial
artifact, against the claim that no report file is created or written. -/
theorem C6_partial_write_on_failure :
    (run_pipeline false none).fileCreated = true ∧
    (run_pipeline false none).writeRaised = true ∧
    (run_pipeline false none).written = none ∧
    (run_pipeline false (some "text")).fileCreated = true :=
  ⟨rfl, rfl, rfl, rfl⟩

/-- C7: whenever a model call completes (the success path, parsable or not),
the client sleeps the configured interval before returning: the return
instant is the final call instant plus the interval, the last recorded sleep
is that interval, and any later run started at or after the return instant
issues its first call at least one interval after this run's final call. -/
theorem C7_rate_limit_pause (request_interval : Nat) (model : Nat → CallResult)
    (h : (generate_content request_interval model).succeeded = true) :
    (generate_content request_interval model).endTime =
      (generate_content request_interval model).lastCallTime + request_interval ∧
    (generate_content request_interval model).sleeps.getLast? = some request_interval ∧
    ∀ t1 t2 : Nat, t1 + (generate_content request_interval model).endTime ≤ t2 →
      t1 + (generate_content request_interval model).lastCallTime + request_interval ≤ t2 := by
  cases hm0 : model 0 with
  | success t =>
    rw [generate_content_first_success request_interval model t hm0]
    refine ⟨by simp, rfl, ?_⟩
    intro t1 t2 hle
    dsimp only at hle ⊢
    omega
  | failure msg =>
    rw [generate_content_first_failure request_interval model msg hm0] at h ⊢
    by_cases ht : isTransient msg = true
    · rw [if_pos ht] at h ⊢
      cases hm1 : model 1 with
      | success t =>
        refine ⟨rfl, rfl, ?_⟩
        intro t1 t2 hle
        dsimp only at hle ⊢
        omega
      | failure m2 =>
        rw [hm1] at h
        exact absurd h (by simp)
    · rw [if_neg ht] at h
      exact absurd h (by simp)

/-- C7 witness: the theorem applied to the always-successful model. -/
theorem C7_rate_limit_pause_witness :
    (generate_content 40 modelOk).endTime = (generate_content 40 modelOk).lastCallTime + 40 ∧
    (generate_content 40 modelOk).sleeps.getLast? = some 40 ∧
    ∀ t1 t2 : Nat, t1 + (generate_content 40 modelOk).endTime ≤ t2 →
      t1 + (generate_content 40 modelOk).lastCallTime + 40 ≤ t2 :=
  C7_rate_limit_pause 40 modelOk rfl

/-- C9: constructing a `ContentGenerator` with a falsy api_key (absent or
empty) raises `ValueError("API key is required.")` before any model
configuration; with a non-empty key the check raises nothing and the model
is configured. -/
theorem C9_api_key_required (api_key : Option String) :
    (falsyKey api_key = true →
      (configure_model api_key).raised = some "API key is required." ∧
      (configure_model api_key).configured = false) ∧
    (falsyKey api_key = false →
      (configure_model api_key).raised = none ∧
      (configure_model api_key).configured = true) := by
  constructor
  · intro hf
    unfold configure_model
    rw [if_pos hf]
    exact ⟨rfl, rfl⟩
  · intro hf
    unfold configure_model
    rw [if_neg (by simp [hf])]
    exact ⟨rfl, rfl⟩

end StockNav
